import Mathlib

/-!
Shallow embedding of the two generation wrappers of the writing-assistant
repository (`src/generative_model.py`), together with the post-processing
step its UI caller (`src/app.py`) applies to `fix_sentence`'s result.

The pretrained models and tokenizers are external black boxes: they enter
the embedding as oracle parameters (`tokenize`, `generate`).  Everything
the Python code computes around those calls — instruction-template
selection, the sentence split, prompt formatting, the generation-setting
dictionaries, decoding post-processing (set-based dedup, empty-string
removal, the "Generated: " marker) — is embedded directly from the source.
-/

namespace WritingAssistant

/-- ASCII whitespace characters matched by Python's regex class `\s`
(the inputs exercised here are ASCII; the wider Unicode cases of `\s`
are not needed by any claim). -/
def isPySpace (c : Char) : Bool :=
  c = ' ' || c = '\t' || c = '\n' || c = '\r' || c = '\x0b' || c = '\x0c'

/-- Embeds `re.split(r"\.\s", input_text)` (generative_model.py line 72):
scan left to right; each non-overlapping occurrence of a period followed
by one whitespace character ends the current fragment.  `acc` holds the
current fragment's characters in reverse. -/
def reSplitDotSpace : List Char → List Char → List (List Char)
  | [], acc => [acc.reverse]
  | [c], acc => [(c :: acc).reverse]
  | c1 :: c2 :: rest, acc =>
    if c1 = '.' && isPySpace c2 then
      acc.reverse :: reSplitDotSpace rest []
    else
      reSplitDotSpace (c2 :: rest) (c1 :: acc)

/-- The sentence-boundary split used by `fix_sentence`
(`input_text_list = re.split(r"\.\s", input_text)`). -/
def sentenceSplit (input_text : String) : List String :=
  (reSplitDotSpace input_text.data []).map fun l => ⟨l⟩

/-- Embeds the task-to-instruction-template dispatch of `fix_sentence`
(generative_model.py lines 57-70): an if/elif chain with a grammar
fallback for any unrecognised task. -/
def selectPrompt (task : String) : String :=
  if task = "grammar" then "Fix the grammar: {text}"
  else if task = "coherent" then "Make this text coherent: {text}"
  else if task = "simpler" then "Rewrite to make this easier to understand: {text}"
  else if task = "paraphrase" then "Paraphrase this: {text}"
  else if task = "formal" then "Write this more formally: {text}"
  else if task = "neutral" then "Write in a more neutral way: {text}"
  else "Fix the grammar: {text}"

/-- Replace every non-overlapping occurrence of pattern `p` in the scanned
list by `r`, left to right, exactly as Python's `str.replace` does for a
nonempty pattern; the inserted replacement is not rescanned.  The fuel
argument bounds the recursion; any fuel at least the list length gives the
replace-all behaviour. -/
def pyReplaceAux (p r : List Char) : Nat → List Char → List Char
  | _, [] => []
  | 0, s => s
  | n + 1, c :: rest =>
    if p.isPrefixOf (c :: rest) then
      r ++ pyReplaceAux p r n (rest.drop (p.length - 1))
    else
      c :: pyReplaceAux p r n rest

/-- Python `s.replace(p, r)` for a nonempty pattern `p`.  Also used to
embed `prompt.format(text=sentence)`, whose effect on the six fixed
templates (each containing the placeholder exactly once, and the inserted
value never rescanned) is replacing the literal `"{text}"`. -/
def pyReplace (s p r : String) : String :=
  ⟨pyReplaceAux p.data r.data s.data.length s.data⟩

/-- The prompt batch of `fix_sentence` (generative_model.py line 77): one
instruction-wrapped prompt per sentence fragment, in fragment order. -/
def fixSentencePrompts (task input_text : String) : List String :=
  (sentenceSplit input_text).map fun sentence =>
    pyReplace (selectPrompt task) "{text}" sentence

/-- The generation-setting dictionary passed to `model.generate`.  Keys
that a code path leaves out of the Python dict are `none`. -/
structure GenSetting where
  max_length : Nat
  pad_token_id : Int
  eos_token_id : Int
  low_memory : Bool
  do_sample : Option Bool := none
  top_p : Option ℚ := none
  num_beams : Option Nat := none
  num_return_sequences : Option Nat := none
  no_repeat_ngram_size : Option Nat := none
  deriving Repr, DecidableEq

/-- Embeds the settings construction of `fix_sentence` (generative_model.py
lines 88-102): the base dict, then the decoding-strategy branch.  `eos` is
the tokenizer's `eos_token_id`, an external value. -/
def fixSentenceSetting (decoding_strategy : String) (max_length : Nat)
    (eos : Int) (low_memory_setting : Bool) : GenSetting :=
  let setting : GenSetting :=
    { max_length := max_length
      pad_token_id := eos
      eos_token_id := eos
      low_memory := low_memory_setting }
  if decoding_strategy = "stochastic" ∨ decoding_strategy = "s" then
    { setting with do_sample := some true, top_p := some (95 / 100 : ℚ) }
  else
    { setting with do_sample := some false, num_beams := some 1 }

/-- Embeds `fix_sentence` (generative_model.py lines 13-111).  The T5
model together with its tokenizer and decoding is the oracle `generate`:
given the device, the generation settings, and the prompt batch, it
returns the batch-decoded output strings.  The function's own computation
— template choice, sentence split, prompt batch, settings, and the final
join prefixed with the literal marker — is embedded from the source. -/
def fix_sentence (task input_text : String)
    (decoding_strategy : String) (max_length : Nat) (device : String)
    (low_memory_setting : Bool) (eos : Int)
    (generate : String → GenSetting → List String → List String) : String :=
  let prompts := fixSentencePrompts task input_text
  let setting := fixSentenceSetting decoding_strategy max_length eos low_memory_setting
  let generated_texts := generate device setting prompts
  "Generated: " ++ String.intercalate " " generated_texts

/-- Whether a string begins with the case-insensitive marker word
"generated" (the optional trailing whitespace of the spec's phrasing
adds nothing to a begins-with test). -/
def beginsWithGenerated (s : String) : Bool :=
  (s.data.take 9).map Char.toLower == "generated".data

/-- The fixed instruction prompt of `predict_suggestions`
(generative_model.py line 158). -/
def predictPrompt (input_text : String) : String :=
  "Complete the sentences keeping the context intact: " ++ input_text

/-- Embeds the settings construction of `predict_suggestions`
(generative_model.py lines 164-182): `max_length` is the tokenized prompt
length plus `token_suggestion_qty` (an absolute cap), then the
decoding-strategy branch. -/
def predictSetting (decoding_strategy : String)
    (tokenizedLen token_suggestion_qty num_token_suggestions : Nat)
    (eos : Int) (low_memory_setting : Bool) : GenSetting :=
  let setting : GenSetting :=
    { max_length := tokenizedLen + token_suggestion_qty
      num_return_sequences := some num_token_suggestions
      no_repeat_ngram_size := some 2
      pad_token_id := eos
      eos_token_id := eos
      low_memory := low_memory_setting }
  if decoding_strategy = "stochastic" ∨ decoding_strategy = "s" then
    { setting with do_sample := some true, top_p := some (95 / 100 : ℚ) }
  else
    { setting with do_sample := some false, num_beams := some num_token_suggestions }

/-- Python's set comprehension followed by `list(...)`: deduplication by
exact string equality.  Which duplicate survives and in which order the
elements come out is unspecified in the source (hash order); this model
keeps the last occurrence of each value. -/
def pySetList : List String → List String
  | [] => []
  | x :: xs =>
    let rest := pySetList xs
    if x ∈ rest then rest else x :: rest

/-- Embeds the post-processing of `predict_suggestions`
(generative_model.py lines 195-202): strip the prompt text from every
decoded output by replace-all, deduplicate with a set, then
`final_tokens.remove("")` inside `try/except ValueError: pass` — i.e.
remove the first empty string if one is present, and do nothing (the
error is swallowed) if none is. -/
def cleanSuggestions (prompt : String) (final_outputs : List String) : List String :=
  let final_tokens := pySetList (final_outputs.map fun text => pyReplace text prompt "")
  if "" ∈ final_tokens then final_tokens.erase "" else final_tokens

/-- Embeds `predict_suggestions` (generative_model.py lines 114-204).
The GPT-2 tokenizer is the oracle `tokenize` (prompt to token ids); the
model with decoding is the oracle `generate` (device, token ids and
settings to batch-decoded output strings).  The returned Python tuple is
modelled as the list of its elements. -/
def predict_suggestions (input_text : String)
    (num_token_suggestions token_suggestion_qty : Nat)
    (decoding_strategy device : String) (low_memory_setting : Bool) (eos : Int)
    (tokenize : String → List Nat)
    (generate : String → List Nat → GenSetting → List String) : List String :=
  let prompt := predictPrompt input_text
  let tokenized := tokenize prompt
  let setting := predictSetting decoding_strategy tokenized.length
    token_suggestion_qty num_token_suggestions eos low_memory_setting
  let final_outputs := generate device tokenized setting
  cleanSuggestions prompt final_outputs

end WritingAssistant

namespace WritingAssistant

/-! ### Helper lemmas -/

/-- The sentence split never produces an empty fragment list. -/
theorem reSplitDotSpace_ne_nil : ∀ (s acc : List Char), reSplitDotSpace s acc ≠ []
  | [], _ => by simp [reSplitDotSpace]
  | [_], _ => by simp [reSplitDotSpace]
  | c1 :: c2 :: rest, acc => by
    rw [reSplitDotSpace]
    split
    · simp
    · exact reSplitDotSpace_ne_nil (c2 :: rest) (c1 :: acc)

theorem sentenceSplit_length_pos (input_text : String) :
    0 < (sentenceSplit input_text).length := by
  unfold sentenceSplit
  rw [List.length_map]
  exact List.length_pos.mpr (reSplitDotSpace_ne_nil _ _)

/-- If the pattern occurs nowhere in the scanned list, replace-all is the
identity (for any fuel: exhausted fuel also returns the list unchanged). -/
theorem pyReplaceAux_of_no_occurrence (p r : List Char) :
    ∀ (n : Nat) (s : List Char), ¬ p <:+: s → pyReplaceAux p r n s = s
  | n, [], _ => by cases n <;> simp [pyReplaceAux]
  | 0, _ :: _, _ => by simp [pyReplaceAux]
  | n + 1, c :: rest, h => by
    have hpre : ¬ p.isPrefixOf (c :: rest) = true := by
      intro hb
      exact h (List.IsPrefix.isInfix (List.isPrefixOf_iff_prefix.mp hb))
    have hrest : ¬ p <:+: rest := fun hi => h (List.infix_cons hi)
    simp only [pyReplaceAux, if_neg hpre]
    rw [pyReplaceAux_of_no_occurrence p r n rest hrest]

theorem pyReplace_self_of_no_occurrence (s p r : String) (h : ¬ p.data <:+: s.data) :
    pyReplace s p r = s := by
  unfold pyReplace
  rw [pyReplaceAux_of_no_occurrence p.data r.data s.data.length s.data h]

/-- Python set-based deduplication yields a list without duplicates. -/
theorem pySetList_nodup : ∀ l : List String, (pySetList l).Nodup
  | [] => by simp [pySetList]
  | x :: xs => by
    simp only [pySetList]
    split
    · exact pySetList_nodup xs
    · exact List.nodup_cons.mpr ⟨by assumption, pySetList_nodup xs⟩

/-- Deduplication never lengthens a list. -/
theorem pySetList_length_le : ∀ l : List String, (pySetList l).length ≤ l.length
  | [] => Nat.le_refl _
  | x :: xs => by
    simp only [pySetList, List.length_cons]
    split
    · exact Nat.le_succ_of_le (pySetList_length_le xs)
    · exact Nat.succ_le_succ (pySetList_length_le xs)

/-- The suggestion post-processing yields no empty string and no
duplicate. -/
theorem cleanSuggestions_no_empty_nodup (prompt : String) (outs : List String) :
    "" ∉ cleanSuggestions prompt outs ∧ (cleanSuggestions prompt outs).Nodup := by
  unfold cleanSuggestions
  have hnd : (pySetList (outs.map fun text => pyReplace text prompt "")).Nodup :=
    pySetList_nodup _
  by_cases h : "" ∈ pySetList (outs.map fun text => pyReplace text prompt "")
  · rw [if_pos h]
    refine ⟨?_, List.Nodup.erase _ hnd⟩
    intro hm
    exact (hnd.mem_erase_iff.mp hm).1 rfl
  · rw [if_neg h]
    exact ⟨h, hnd⟩

end WritingAssistant

namespace WritingAssistant

/-! ### Claim theorems -/

/-- Claim C1, counterexample: with the grammar task, a small input and a
model that echoes nothing, the string returned by `fix_sentence` does
begin with the case-insensitive marker "generated" — refuting the claim
that it never does, for any model output. -/
theorem c1_counterexample :
    beginsWithGenerated
      (fix_sentence "grammar" "hello" "stochastic" 200 "cpu" true 1
        (fun _ _ _ => ["ok"])) = true := by decide

/-- Claim C1 (amended): for every task, input text, decoding strategy,
maximum length, device, low-memory flag, eos id and model behaviour, the
string returned by `fix_sentence` always begins with the literal marker
"Generated: "; the leading-marker removal the original claim describes is
performed afterwards by the caller (app.py lines 155-157), not inside
`fix_sentence`. -/
theorem c1_fix_sentence_begins_with_marker
    (task input_text decoding_strategy : String) (max_length : Nat)
    (device : String) (low_memory_setting : Bool) (eos : Int)
    (generate : String → GenSetting → List String → List String) :
    "Generated: ".data <+:
      (fix_sentence task input_text decoding_strategy max_length device
        low_memory_setting eos generate).data := by
  simp only [fix_sentence, String.data_append]
  exact List.prefix_append _ _

/-- Claim C2, counterexample: the sentence split of `fix_sentence` applied
to "3.5 is a number." does not yield the fragments claimed by the spec,
because the regex requires a whitespace character after the period and the
period of "3.5" is followed by "5". -/
theorem c2_counterexample :
    sentenceSplit "3.5 is a number." ≠ ["3", "5 is a number."] := by decide

/-- Claim C2 (amended): splitting "A. B. C" on the sentence heuristic
yields exactly ["A", "B", "C"], and splitting "3.5 is a number." yields
the single fragment ["3.5 is a number."] — decimals are not mis-split,
since the pattern is a period followed by whitespace. -/
theorem c2_sentence_split_examples :
    sentenceSplit "A. B. C" = ["A", "B", "C"] ∧
    sentenceSplit "3.5 is a number." = ["3.5 is a number."] :=
  ⟨by decide, by decide⟩

/-- Claim C3: in both `fix_sentence` and `predict_suggestions`, a decoding
strategy of "stochastic" or "s" yields settings with do_sample = true and
top_p = 0.95; any other strategy yields do_sample = false, with
num_beams = 1 in `fix_sentence` and num_beams = num_token_suggestions in
`predict_suggestions`. -/
theorem c3_decoding_strategy_settings
    (decoding_strategy : String) (max_length : Nat) (eos : Int)
    (low_memory_setting : Bool) (tokenizedLen qty N : Nat) :
    ((decoding_strategy = "stochastic" ∨ decoding_strategy = "s") →
      (fixSentenceSetting decoding_strategy max_length eos low_memory_setting).do_sample
          = some true ∧
      (fixSentenceSetting decoding_strategy max_length eos low_memory_setting).top_p
          = some (95 / 100 : ℚ) ∧
      (predictSetting decoding_strategy tokenizedLen qty N eos low_memory_setting).do_sample
          = some true ∧
      (predictSetting decoding_strategy tokenizedLen qty N eos low_memory_setting).top_p
          = some (95 / 100 : ℚ)) ∧
    (¬(decoding_strategy = "stochastic" ∨ decoding_strategy = "s") →
      (fixSentenceSetting decoding_strategy max_length eos low_memory_setting).do_sample
          = some false ∧
      (fixSentenceSetting decoding_strategy max_length eos low_memory_setting).num_beams
          = some 1 ∧
      (predictSetting decoding_strategy tokenizedLen qty N eos low_memory_setting).do_sample
          = some false ∧
      (predictSetting decoding_strategy tokenizedLen qty N eos low_memory_setting).num_beams
          = some N) := by
  constructor
  · intro h
    simp [fixSentenceSetting, predictSetting, if_pos h]
  · intro h
    simp [fixSentenceSetting, predictSetting, if_neg h]

/-- Claim C3, witness: the settings evaluated at the concrete strategies
"stochastic" and "greedy". -/
theorem c3_decoding_strategy_settings_witness :
    (fixSentenceSetting "stochastic" 200 1 true).do_sample = some true ∧
    (fixSentenceSetting "stochastic" 200 1 true).top_p = some (95 / 100 : ℚ) ∧
    (predictSetting "greedy" 10 1 5 1 true).do_sample = some false ∧
    (predictSetting "greedy" 10 1 5 1 true).num_beams = some 5 :=
  ⟨((c3_decoding_strategy_settings "stochastic" 200 1 true 10 1 5).1 (Or.inl rfl)).1,
   ((c3_decoding_strategy_settings "stochastic" 200 1 true 10 1 5).1 (Or.inl rfl)).2.1,
   ((c3_decoding_strategy_settings "greedy" 200 1 true 10 1 5).2 (by decide)).2.2.1,
   ((c3_decoding_strategy_settings "greedy" 200 1 true 10 1 5).2 (by decide)).2.2.2⟩

/-- Claim C4: each of the six supported task values selects exactly its
documented instruction template, and every other task value selects the
grammar template (the dispatch is total, so no error is raised). -/
theorem c4_task_template_mapping (task : String) :
    selectPrompt "grammar" = "Fix the grammar: {text}" ∧
    selectPrompt "coherent" = "Make this text coherent: {text}" ∧
    selectPrompt "simpler" = "Rewrite to make this easier to understand: {text}" ∧
    selectPrompt "paraphrase" = "Paraphrase this: {text}" ∧
    selectPrompt "formal" = "Write this more formally: {text}" ∧
    selectPrompt "neutral" = "Write in a more neutral way: {text}" ∧
    (task ∉ (["grammar", "coherent", "simpler", "paraphrase", "formal",
        "neutral"] : List String) →
      selectPrompt task = "Fix the grammar: {text}") := by
  refine ⟨by decide, by decide, by decide, by decide, by decide, by decide, ?_⟩
  intro h
  simp only [List.mem_cons, List.not_mem_nil, or_false, not_or] at h
  obtain ⟨h1, h2, h3, h4, h5, h6⟩ := h
  simp [selectPrompt, h1, h2, h3, h4, h5, h6]

/-- Claim C4, witness: an unsupported task value falls back to the grammar
template. -/
theorem c4_task_template_mapping_witness :
    selectPrompt "summarize" = "Fix the grammar: {text}" :=
  (c4_task_template_mapping "summarize").2.2.2.2.2.2 (by decide)

end WritingAssistant

namespace WritingAssistant

/-- Claim C5: for every input and every model behaviour, the collection
returned by `predict_suggestions` contains no empty string and no two
equal elements. -/
theorem c5_no_empty_no_duplicate (input_text : String)
    (num_token_suggestions token_suggestion_qty : Nat)
    (decoding_strategy device : String) (low_memory_setting : Bool) (eos : Int)
    (tokenize : String → List Nat)
    (generate : String → List Nat → GenSetting → List String) :
    "" ∉ predict_suggestions input_text num_token_suggestions
        token_suggestion_qty decoding_strategy device low_memory_setting eos
        tokenize generate ∧
    (predict_suggestions input_text num_token_suggestions
        token_suggestion_qty decoding_strategy device low_memory_setting eos
        tokenize generate).Nodup := by
  simp only [predict_suggestions]
  exact cleanSuggestions_no_empty_nodup _ _

/-- Claim C6: when `predict_suggestions` is called with
num_token_suggestions = N under greedy decoding and the model returns N
decoded sequences, the returned collection has at most N elements. -/
theorem c6_greedy_returns_at_most_n (input_text : String) (N qty : Nat)
    (device : String) (lm : Bool) (eos : Int)
    (tokenize : String → List Nat)
    (generate : String → List Nat → GenSetting → List String)
    (h : (generate device (tokenize (predictPrompt input_text))
        (predictSetting "greedy" (tokenize (predictPrompt input_text)).length
          qty N eos lm)).length = N) :
    (predict_suggestions input_text N qty "greedy" device lm eos tokenize
        generate).length ≤ N := by
  simp only [predict_suggestions, cleanSuggestions]
  have h1 : ∀ l : List String,
      (if "" ∈ l then l.erase "" else l).length ≤ l.length := by
    intro l
    split
    · exact List.length_erase_le _ _
    · exact le_refl _
  refine le_trans (le_trans (h1 _) (pySetList_length_le _)) ?_
  rw [List.length_map]
  exact le_of_eq h

/-- Claim C6, witness: three decoded sequences yield at most three
suggestions. -/
theorem c6_greedy_returns_at_most_n_witness :
    (predict_suggestions "I like" 3 1 "greedy" "cpu" true 1 (fun _ => [0])
        (fun _ _ _ => ["a", "b", "c"])).length ≤ 3 :=
  c6_greedy_returns_at_most_n "I like" 3 1 "cpu" true 1 (fun _ => [0])
    (fun _ _ _ => ["a", "b", "c"]) rfl

/-- Claim C7: each decoded sequence is cleaned by removing every
occurrence of the exact instruction-prompt text anywhere in the string —
a decoded sequence without the prompt text is left unchanged, and an
occurrence that is not a leading prefix is removed as well. -/
theorem c7_prompt_replacement (input_text : String) :
    (∀ text : String, ¬ (predictPrompt input_text).data <:+: text.data →
      pyReplace text (predictPrompt input_text) "" = text) ∧
    pyReplace ("abc" ++ predictPrompt "hi" ++ "def") (predictPrompt "hi") ""
      = "abcdef" := by
  constructor
  · intro text h
    exact pyReplace_self_of_no_occurrence text (predictPrompt input_text) "" h
  · decide

/-- Claim C7, witness: a decoded sequence not containing the prompt text
is left unchanged. -/
theorem c7_prompt_replacement_witness :
    pyReplace "zzz" (predictPrompt "hi") "" = "zzz" :=
  (c7_prompt_replacement "hi").1 "zzz" (by decide)

/-- Claim C8: in `predict_suggestions` the maximum generation length is
the tokenized prompt length plus token_suggestion_qty (an absolute
max_length cap), and the settings request num_token_suggestions returned
sequences with no_repeat_ngram_size = 2, for every decoding strategy. -/
theorem c8_predict_setting_fields (decoding_strategy : String)
    (tokenizedLen qty N : Nat) (eos : Int) (lm : Bool) :
    (predictSetting decoding_strategy tokenizedLen qty N eos lm).max_length
        = tokenizedLen + qty ∧
    (predictSetting decoding_strategy tokenizedLen qty N eos lm).num_return_sequences
        = some N ∧
    (predictSetting decoding_strategy tokenizedLen qty N eos lm).no_repeat_ngram_size
        = some 2 := by
  unfold predictSetting
  split <;> exact ⟨rfl, rfl, rfl⟩

/-- Claim C9: if the deduplicated suggestion collection contains no empty
string, the empty-string-removal step leaves it unchanged (the
value-not-found error is swallowed); if it contains an empty string, that
single occurrence is removed. -/
theorem c9_empty_string_removal (prompt : String) (final_outputs : List String) :
    ("" ∉ pySetList (final_outputs.map fun text => pyReplace text prompt "") →
      cleanSuggestions prompt final_outputs
        = pySetList (final_outputs.map fun text => pyReplace text prompt "")) ∧
    ("" ∈ pySetList (final_outputs.map fun text => pyReplace text prompt "") →
      cleanSuggestions prompt final_outputs
        = (pySetList (final_outputs.map fun text => pyReplace text prompt "")).erase "" ∧
      "" ∉ cleanSuggestions prompt final_outputs ∧
      (cleanSuggestions prompt final_outputs).length + 1
        = (pySetList (final_outputs.map fun text => pyReplace text prompt "")).length) := by
  constructor
  · intro h
    unfold cleanSuggestions
    rw [if_neg h]
  · intro h
    have hnd := pySetList_nodup (final_outputs.map fun text => pyReplace text prompt "")
    have hpos : 0 < (pySetList (final_outputs.map fun text =>
        pyReplace text prompt "")).length :=
      List.length_pos.mpr (List.ne_nil_of_mem h)
    unfold cleanSuggestions
    rw [if_pos h]
    refine ⟨rfl, ?_, ?_⟩
    · intro hm
      exact (hnd.mem_erase_iff.mp hm).1 rfl
    · rw [List.length_erase_of_mem h]
      omega

/-- Claim C9, witness: both branches at concrete decoded outputs — one
without an empty suggestion (nothing removed, no error) and one whose
suggestion list contains the empty string (that occurrence removed). -/
theorem c9_empty_string_removal_witness :
    cleanSuggestions "P" ["a"]
      = pySetList (["a"].map fun text => pyReplace text "P" "") ∧
    cleanSuggestions "P" ["P"]
      = (pySetList (["P"].map fun text => pyReplace text "P" "")).erase "" :=
  ⟨(c9_empty_string_removal "P" ["a"]).1 (by decide),
   ((c9_empty_string_removal "P" ["P"]).2 (by decide)).1⟩

/-- Claim C10: for every task and input text — the empty string included —
the sentence split yields at least one fragment, the prompt batch handed
to the model has exactly one prompt per fragment, and the i-th prompt is
the selected template with the i-th fragment substituted. -/
theorem c10_prompt_batch_invariants (task input_text : String) :
    0 < (sentenceSplit input_text).length ∧
    (fixSentencePrompts task input_text).length = (sentenceSplit input_text).length ∧
    ∀ (i : Nat) (hi : i < (fixSentencePrompts task input_text).length)
      (hj : i < (sentenceSplit input_text).length),
      (fixSentencePrompts task input_text).get ⟨i, hi⟩
        = pyReplace (selectPrompt task) "{text}"
            ((sentenceSplit input_text).get ⟨i, hj⟩) := by
  refine ⟨sentenceSplit_length_pos input_text, List.length_map _ _, ?_⟩
  intro i hi hj
  simp [fixSentencePrompts]

/-- Claim C10, witness: the batch for task "grammar" on "A. B" at index
0. -/
theorem c10_prompt_batch_invariants_witness :
    0 < (sentenceSplit "A. B").length ∧
    (fixSentencePrompts "grammar" "A. B").get ⟨0, by decide⟩
      = pyReplace (selectPrompt "grammar") "{text}"
          ((sentenceSplit "A. B").get ⟨0, by decide⟩) :=
  ⟨(c10_prompt_batch_invariants "grammar" "A. B").1,
   (c10_prompt_batch_invariants "grammar" "A. B").2.2 0 (by decide) (by decide)⟩

end WritingAssistant
